import Mathlib

/-!
Shallow embedding of `src/api_download.py` (the batch action-dispatch and
result-aggregation layer of the TikTokDownloader repository).

The external collaborators (link extractors, fetch/download backend,
database, recorder factory) are modelled as an explicit environment `Env`
of fallible functions (`Except String` mirrors a Python call that may
raise, the error string being `str(e)`).  Every adapter invocation is
logged as an `Event`, so that statements about "which calls were made"
(zero network calls, recorder acquire/release balance, the page count
passed to the comment handler) are expressible.

Configuration options of `API_download` that are only forwarded to the
`Parameter` constructor (download path, proxies, chunk size, ...) do not
influence the dispatcher's control flow; they are absorbed into
`Env.setup`, which stands for lines 180-256 of the source (console,
settings, cookie object, database open, config read, recorder and
parameter construction).  `pystrip` models Python's `str.strip()`.
-/

deriving instance DecidableEq for Except

namespace TTD

/-- Python `str.strip()`: drop whitespace from both ends.  Defined by
structural recursion over the character list so the kernel can evaluate
it on concrete strings. -/
def stripChars (cs : List Char) : List Char :=
  ((cs.dropWhile Char.isWhitespace).reverse.dropWhile Char.isWhitespace).reverse

def pystrip (s : String) : String :=
  ⟨stripChars s.data⟩

/-- The possible Python runtime shapes of the `urls` keyword argument. -/
inductive PyUrls where
  | pystr (s : String)
  | pylist (xs : List String)
  | pynone
  | pyother (truthy : Bool)
deriving Repr, DecidableEq

/-- A Python value returned by a backend batch call: either a list (whose
length is what `len` returns) or a non-list scalar with a truthiness. -/
inductive PyData where
  | pylist (n : Nat)
  | pyscalar (t : Bool)
deriving Repr, DecidableEq

/-- Python truthiness of a `PyData` value. -/
def PyData.truthy : PyData → Bool
  | .pylist n => n != 0
  | .pyscalar t => t

/-- Python `len(data) if isinstance(data, list) else 1`. -/
def PyData.count : PyData → Nat
  | .pylist n => n
  | .pyscalar _ => 1

/-- One entry of the `details` list of the result dictionary.  Absent
dictionary keys are `none`. -/
structure Detail where
  url : String
  status : String
  extracted_ids : Option (List String) := Option.none
  error : Option String := Option.none
  user_id : Option String := Option.none
  mix_ids : Option (List String) := Option.none
  live_count : Option Nat := Option.none
deriving Repr, DecidableEq

/-- The result dictionary returned by `API_download`. -/
structure DLResult where
  success : Bool
  message : String
  downloaded_count : Nat
  failed_count : Nat
  details : List Detail
deriving Repr, DecidableEq

/-- Observable events of one `API_download` run: link-extractor calls,
network fetch/download calls, recorder session acquisition and release,
and the `pages` argument handed to the comment handler. -/
inductive Event where
  | extract
  | fetch
  | acquire
  | release
  | pages (n : Nat)
deriving Repr, DecidableEq

/-- The external collaborators of `api_download.py`, as fallible
functions.  `Except.error e` models a raised exception with
`str(exc) = e`. -/
structure Env where
  /-- Lines 180-256: console/settings/cookie/database/config/recorder/
  `Parameter`/`TikTok` construction; any exception there is caught by the
  outer `except`. -/
  setup : Except String Unit
  /-- Source `record.run(parameter)` followed by `logger_manager(...).__aenter__`:
  acquisition of one recording session. -/
  acquireRecord : Except String Unit
  linksRun : String → Except String (List String)
  linksRunTiktok : String → Except String (List String)
  linksRunLive : String → Except String (List String)
  linksRunLiveTiktok : String → Except String (List String)
  linksUser : String → Except String (List String)
  linksUserTiktok : String → Except String (List String)
  linksMix : String → Except String (Bool × List String)
  linksMixTiktok : String → Except String (Bool × List String)
  linksCollects : String → Except String (List String)
  handleDetail : List String → Except String Unit
  handleDetailUnofficial : List String → Except String Unit
  dealAccountWorks : String → String → Except String PyData
  dealAccountWorksTiktok : String → String → Except String PyData
  mixBatch : List String → Except String PyData
  mixBatchTiktok : List String → Except String PyData
  commentHandle : List String → Nat → Except String Unit
  getLiveData : String → Except String Unit
  getLiveDataTiktok : String → Except String Unit
  extractorLive : List String → Except String (List Bool)
  showAndDownloadLive : Nat → Except String Unit
  accountDetailBatch : List String → Except String Bool
  userSearchBatch : String → Except String PyData
  videoSearchBatch : String → Except String PyData
  liveSearchBatch : String → Except String PyData
  generalSearchBatch : String → Except String PyData
  hotBatch : Except String PyData
  collectionBatch : Except String PyData
  collectionMusicBatch : Except String PyData
  collectsBatch : List String → Except String PyData
  closeClient : Except String Unit

/-- The keyword arguments of `API_download` that steer its control flow. -/
structure Kwargs where
  urls : Option PyUrls := Option.none
  tiktok : Bool := false
  account_tab : String := "post"
  search_keyword : String := ""
  search_type : String := "general"
  max_pages : Option Nat := Option.none
deriving Repr, DecidableEq

/-- Line 129 of the source: `max_pages = kwargs.get('max_pages', 1)`. -/
def getMaxPages (kw : Kwargs) : Nat :=
  kw.max_pages.getD 1

/-- Line 132: the `valid_actions` list. -/
def validActions : List String :=
  ["detail", "account", "live", "comment", "mix", "user",
   "search", "hot", "collection", "collection_music",
   "collects", "detail_unofficial"]

/-- Line 147: the initial result dictionary. -/
def initResult : DLResult :=
  { success := false, message := "", downloaded_count := 0,
    failed_count := 0, details := [] }

/-- Line 157: the actions requiring a truthy `urls` argument. -/
def inputActions : List String :=
  ["detail", "detail_unofficial", "account", "live", "comment", "mix", "user"]

/-- Line 166: the actions whose `urls` is normalized into a list. -/
def urlActions : List String :=
  ["detail", "detail_unofficial", "account", "live", "comment", "mix", "user", "collects"]

/-- Python truthiness of `kwargs.get('urls')` (line 157). -/
def urlsTruthy : Option PyUrls → Bool
  | Option.none => false
  | Option.some (.pystr s) => s != ""
  | Option.some (.pylist xs) => !xs.isEmpty
  | Option.some .pynone => false
  | Option.some (.pyother t) => t

/-- Lines 166-178: coerce `urls` into a list, or produce the validation
message. -/
def normalizeUrls : PyUrls → Except String (List String)
  | .pystr s => if pystrip s = "" then .error "未提供有效的链接" else .ok [s]
  | .pylist xs =>
    if xs.isEmpty || !(xs.any (fun u => pystrip u != "")) then
      .error "未提供有效的链接"
    else .ok xs
  | .pynone => .error "urls参数格式错误，必须是字符串或字符串列表"
  | .pyother _ => .error "urls参数格式错误，必须是字符串或字符串列表"

/-- A handler outcome: the (mutated) result dictionary, `some e` when an
exception escaped to the caller, and the event log. -/
abbrev HOut := DLResult × Option String × List Event

/-- Python `async with logger_manager(...) as record:` around a body.  On failed
acquisition the body never runs and the exception propagates with the
result unchanged; on success the body runs and the session is released
exactly once, whether or not the body raises. -/
def withRecord (acq : Except String Unit) (body : DLResult → HOut)
    (res : DLResult) : HOut :=
  match acq with
  | .error e => (res, Option.some e, [])
  | .ok _ =>
    let (r, err, l) := body res
    (r, err, Event.acquire :: (l ++ [Event.release]))

/-- Lines 327-357: the per-url loop of `_handle_detail_action`.
Arguments: extractor, remaining urls, result so far, `all_ids` so far. -/
def detailLoop (ex : String → Except String (List String)) :
    List String → DLResult → List String →
      DLResult × List String × List Event
  | [], res, allIds => (res, allIds, [])
  | url :: rest, res, allIds =>
    let u := pystrip url
    if u = "" then detailLoop ex rest res allIds
    else
      match ex u with
      | .ok ids =>
        if ids.isEmpty then
          let res := { res with
            details := res.details ++
              [{ url := u, status := "failed", extracted_ids := Option.some [],
                 error := Option.some "无法提取作品ID" }]
            failed_count := res.failed_count + 1 }
          let (r, a, l) := detailLoop ex rest res allIds
          (r, a, Event.extract :: l)
        else
          let res := { res with
            details := res.details ++
              [{ url := u, status := "success", extracted_ids := Option.some ids }] }
          let (r, a, l) := detailLoop ex rest res (allIds ++ ids)
          (r, a, Event.extract :: l)
      | .error e =>
        let res := { res with
          details := res.details ++
            [{ url := u, status := "failed", extracted_ids := Option.some [],
               error := Option.some e }],
          failed_count := res.failed_count + 1 }
        let (r, a, l) := detailLoop ex rest res allIds
        (r, a, Event.extract :: l)

/-- Lines 321-378: `_handle_detail_action`.  The recorder acquisition sits
outside any `try`, so its failure escapes the handler; the download call
is wrapped in a `try` inside the `async with`. -/
def handleDetailAction (env : Env) (action : String) (urls : List String)
    (tk : Bool) (res : DLResult) : HOut :=
  let ex := if tk then env.linksRunTiktok else env.linksRun
  let (res1, allIds, log1) := detailLoop ex urls res []
  if allIds.isEmpty then
    ({ res1 with message := "没有成功提取到任何作品ID" }, Option.none, log1)
  else
    let (r, err, l2) := withRecord env.acquireRecord (fun res =>
      let call :=
        if action = "detail_unofficial" then env.handleDetailUnofficial allIds
        else env.handleDetail allIds
      match call with
      | .ok _ =>
        ({ res with
            success := true
            downloaded_count := allIds.length
            message := "成功处理 " ++ toString allIds.length ++ " 个作品" },
         Option.none, [Event.fetch])
      | .error e =>
        ({ res with
            message := "下载过程中出现错误: " ++ e
            failed_count := res.failed_count + allIds.length },
         Option.none, [Event.fetch])) res1
    (r, err, log1 ++ l2)

/-- Lines 386-433: the per-url loop of `_handle_account_action`.  The whole
loop sits inside one `try`, so an exception (from the extractor, the
recorder acquisition, or the fetch) aborts the remaining urls and is
reported as `some e`. -/
def accountLoop (env : Env) (tk : Bool) (tab : String) :
    List String → DLResult → HOut
  | [], res => (res, Option.none, [])
  | url :: rest, res =>
    let u := pystrip url
    if u = "" then accountLoop env tk tab rest res
    else
      match (if tk then env.linksUserTiktok u else env.linksUser u) with
      | .error e => (res, Option.some e, [Event.extract])
      | .ok userIds =>
        if userIds.isEmpty then
          let res := { res with
            details := res.details ++
              [{ url := u, status := "failed",
                 error := Option.some "无法提取账号信息" }],
            failed_count := res.failed_count + 1 }
          let (r, err, l) := accountLoop env tk tab rest res
          (r, err, Event.extract :: l)
        else
          let uid := userIds.headD ""
          let (r2, err2, l2) := withRecord env.acquireRecord (fun res =>
            match (if tk then env.dealAccountWorksTiktok uid tab
                   else env.dealAccountWorks uid tab) with
            | .error e => (res, Option.some e, [Event.fetch])
            | .ok data =>
              if data.truthy then
                ({ res with
                   details := res.details ++
                     [{ url := u, status := "success", user_id := Option.some uid }],
                   downloaded_count := res.downloaded_count + data.count },
                 Option.none, [Event.fetch])
              else
                ({ res with
                   details := res.details ++
                     [{ url := u, status := "failed",
                        error := Option.some "获取账号作品失败" }],
                   failed_count := res.failed_count + 1 },
                 Option.none, [Event.fetch])) res
          match err2 with
          | Option.some e => (r2, Option.some e, Event.extract :: l2)
          | Option.none =>
            let (r3, err3, l3) := accountLoop env tk tab rest r2
            (r3, err3, Event.extract :: (l2 ++ l3))

/-- Lines 381-439: `_handle_account_action`.  After the loop, `success`
is set unconditionally; an exception is caught at handler level. -/
def handleAccountAction (env : Env) (urls : List String) (tk : Bool)
    (tab : String) (res : DLResult) : HOut :=
  let (r, err, l) := accountLoop env tk tab urls res
  match err with
  | Option.some e =>
    ({ r with message := "处理账号作品时出现错误: " ++ e }, Option.none, l)
  | Option.none =>
    ({ r with success := true, message := "账号作品处理完成" }, Option.none, l)

/-- Lines 465-467: `[await get_live_data(i) for i in ids]` — one fetch per
id; an exception aborts the comprehension. -/
def liveFetch (g : String → Except String Unit) :
    List String → Except String Unit × List Event
  | [] => (.ok (), [])
  | i :: rest =>
    match g i with
    | .error e => (.error e, [Event.fetch])
    | .ok _ =>
      let (r, l) := liveFetch g rest
      (r, Event.fetch :: l)

/-- Lines 448-484: the per-url loop of `_handle_live_action`, returning
also the running count of truthy live-data entries (`all_live_data`).
The whole loop sits in one `try`. -/
def liveLoop (env : Env) (tk : Bool) :
    List String → DLResult → Nat → DLResult × Nat × Option String × List Event
  | [], res, n => (res, n, Option.none, [])
  | url :: rest, res, n =>
    let u := pystrip url
    if u = "" then liveLoop env tk rest res n
    else
      match (if tk then env.linksRunLiveTiktok u else env.linksRunLive u) with
      | .error e => (res, n, Option.some e, [Event.extract])
      | .ok ids =>
        if ids.isEmpty then
          let res := { res with
            details := res.details ++
              [{ url := u, status := "failed",
                 error := Option.some "无法提取直播ID" }]
            failed_count := res.failed_count + 1 }
          let (r, n2, err, l) := liveLoop env tk rest res n
          (r, n2, err, Event.extract :: l)
        else
          let (fr, lf) := liveFetch (if tk then env.getLiveDataTiktok else env.getLiveData) ids
          match fr with
          | .error e => (res, n, Option.some e, Event.extract :: lf)
          | .ok _ =>
            match env.extractorLive ids with
            | .error e => (res, n, Option.some e, Event.extract :: (lf ++ [Event.fetch]))
            | .ok bl =>
              let k := (bl.filter (fun b => b)).length
              if !bl.isEmpty && bl.any (fun b => b) then
                let res := { res with
                  details := res.details ++
                    [{ url := u, status := "success", live_count := Option.some k }] }
                let (r, n2, err, l) := liveLoop env tk rest res (n + k)
                (r, n2, err, Event.extract :: (lf ++ Event.fetch :: l))
              else
                let res := { res with
                  details := res.details ++
                    [{ url := u, status := "failed",
                       error := Option.some "获取直播数据失败" }]
                  failed_count := res.failed_count + 1 }
                let (r, n2, err, l) := liveLoop env tk rest res n
                (r, n2, err, Event.extract :: (lf ++ Event.fetch :: l))

/-- Lines 442-502: `_handle_live_action`.  `show_live_info` and
`downloader.run` are merged into `Env.showAndDownloadLive`. -/
def handleLiveAction (env : Env) (urls : List String) (tk : Bool)
    (res : DLResult) : HOut :=
  let (r, n, err, l) := liveLoop env tk urls res 0
  match err with
  | Option.some e =>
    ({ r with message := "处理直播时出现错误: " ++ e }, Option.none, l)
  | Option.none =>
    if n != 0 then
      match env.showAndDownloadLive n with
      | .error e =>
        ({ r with message := "处理直播时出现错误: " ++ e }, Option.none,
         l ++ [Event.fetch])
      | .ok _ =>
        ({ r with
            success := true
            downloaded_count := n
            message := "成功处理 " ++ toString n ++ " 个直播" }, Option.none,
         l ++ [Event.fetch])
    else
      ({ r with message := "没有获取到有效的直播数据" }, Option.none, l)

/-- Lines 508-516: the id-collecting loop of `_handle_comment_action`
(inside the handler's `try`; no per-item failure recording). -/
def commentLoop (env : Env) :
    List String → List String → List String × Option String × List Event
  | [], acc => (acc, Option.none, [])
  | url :: rest, acc =>
    let u := pystrip url
    if u = "" then commentLoop env rest acc
    else
      match env.linksRun u with
      | .error e => (acc, Option.some e, [Event.extract])
      | .ok ids =>
        let (a, err, l) := commentLoop env rest (acc ++ ids)
        (a, err, Event.extract :: l)

/-- Lines 505-534: `_handle_comment_action`.  The `pages` argument handed
to `comment_handle` is logged as `Event.pages`. -/
def handleCommentAction (env : Env) (urls : List String) (maxPages : Nat)
    (res : DLResult) : HOut :=
  let (allIds, err, l) := commentLoop env urls []
  match err with
  | Option.some e =>
    ({ res with message := "采集评论时出现错误: " ++ e }, Option.none, l)
  | Option.none =>
    if allIds.isEmpty then
      ({ res with message := "没有提取到有效的作品ID" }, Option.none, l)
    else
      match env.commentHandle allIds maxPages with
      | .error e =>
        ({ res with message := "采集评论时出现错误: " ++ e }, Option.none,
         l ++ [Event.pages maxPages, Event.fetch])
      | .ok _ =>
        ({ res with
            success := true
            downloaded_count := allIds.length
            message := "成功采集 " ++ toString allIds.length ++ " 个作品的评论数据" },
         Option.none, l ++ [Event.pages maxPages, Event.fetch])

/-- Lines 552-590: the per-url loop of `_handle_mix_action` (inside one
`try`; a per-url recorder session is opened around each fetch). -/
def mixLoop (env : Env) (tk : Bool) : List String → DLResult → HOut
  | [], res => (res, Option.none, [])
  | url :: rest, res =>
    let u := pystrip url
    if u = "" then mixLoop env tk rest res
    else
      match (if tk then env.linksMixTiktok u else env.linksMix u) with
      | .error e => (res, Option.some e, [Event.extract])
      | .ok (_, mixIds) =>
        if mixIds.isEmpty then
          let res := { res with
            details := res.details ++
              [{ url := u, status := "failed",
                 error := Option.some "无法提取合集ID" }]
            failed_count := res.failed_count + 1 }
          let (r, err, l) := mixLoop env tk rest res
          (r, err, Event.extract :: l)
        else
          let (r2, err2, l2) := withRecord env.acquireRecord (fun res =>
            match (if tk then env.mixBatchTiktok mixIds else env.mixBatch mixIds) with
            | .error e => (res, Option.some e, [Event.fetch])
            | .ok data =>
              if data.truthy then
                ({ res with
                    details := res.details ++
                      [{ url := u, status := "success",
                         mix_ids := Option.some mixIds }]
                    downloaded_count := res.downloaded_count + data.count },
                 Option.none, [Event.fetch])
              else
                ({ res with
                    details := res.details ++
                      [{ url := u, status := "failed",
                         error := Option.some "获取合集作品失败" }]
                    failed_count := res.failed_count + 1 },
                 Option.none, [Event.fetch])) res
          match err2 with
          | Option.some e => (r2, Option.some e, Event.extract :: l2)
          | Option.none =>
            let (r3, err3, l3) := mixLoop env tk rest r2
            (r3, err3, Event.extract :: (l2 ++ l3))

/-- Lines 537-596: `_handle_mix_action`.  At the API call site `urls` is
already a (nonempty) list, so only the handler's own emptiness check of
lines 539-546 remains observable. -/
def handleMixAction (env : Env) (urls : List String) (tk : Bool)
    (res : DLResult) : HOut :=
  if urls.isEmpty then
    ({ res with message := "未提供有效的合集链接" }, Option.none, [])
  else
    let (r, err, l) := mixLoop env tk urls res
    match err with
    | Option.some e =>
      ({ r with message := "处理合集时出现错误: " ++ e }, Option.none, l)
    | Option.none =>
      ({ r with success := true, message := "合集作品处理完成" }, Option.none, l)

/-- Lines 612-620: the id-collecting loop of `_handle_user_action`. -/
def userLoop (env : Env) :
    List String → List String → List String × Option String × List Event
  | [], acc => (acc, Option.none, [])
  | url :: rest, acc =>
    let u := pystrip url
    if u = "" then userLoop env rest acc
    else
      match env.linksUser u with
      | .error e => (acc, Option.some e, [Event.extract])
      | .ok ids =>
        let (a, err, l) := userLoop env rest (acc ++ ids)
        (a, err, Event.extract :: l)

/-- Lines 599-639: `_handle_user_action`.  Here the recorder acquisition
is inside the handler's `try`. -/
def handleUserAction (env : Env) (urls : List String) (res : DLResult) : HOut :=
  if urls.isEmpty then
    ({ res with message := "未提供有效的用户链接" }, Option.none, [])
  else
    let (allIds, uerr, l) := userLoop env urls []
    match uerr with
    | Option.some e =>
      ({ res with message := "采集用户数据时出现错误: " ++ e }, Option.none, l)
    | Option.none =>
      if allIds.isEmpty then
        ({ res with message := "没有提取到有效的用户ID" }, Option.none, l)
      else
        let (r, err, l2) := withRecord env.acquireRecord (fun res =>
          match env.accountDetailBatch allIds with
          | .error e => (res, Option.some e, [Event.fetch])
          | .ok t =>
            if t then
              ({ res with
                  success := true
                  downloaded_count := allIds.length
                  message := "成功采集 " ++ toString allIds.length ++ " 个用户的详细数据" },
               Option.none, [Event.fetch])
            else
              ({ res with message := "用户数据采集失败" }, Option.none, [Event.fetch])) res
        match err with
        | Option.some e =>
          ({ r with message := "采集用户数据时出现错误: " ++ e }, Option.none, l ++ l2)
        | Option.none => (r, Option.none, l ++ l2)

/-- Lines 642-669: `_handle_search_action`. -/
def handleSearchAction (env : Env) (keyword stype : String)
    (res : DLResult) : HOut :=
  if pystrip keyword = "" then
    ({ res with message := "未提供搜索关键词" }, Option.none, [])
  else
    let (r, err, l) := withRecord env.acquireRecord (fun res =>
      let call :=
        if stype = "user" then env.userSearchBatch keyword
        else if stype = "video" then env.videoSearchBatch keyword
        else if stype = "live" then env.liveSearchBatch keyword
        else env.generalSearchBatch keyword
      match call with
      | .error e => (res, Option.some e, [Event.fetch])
      | .ok data =>
        if data.truthy then
          ({ res with
              success := true
              downloaded_count := data.count
              message := "成功采集关键词 \"" ++ keyword ++ "\" 的搜索结果" },
           Option.none, [Event.fetch])
        else
          ({ res with message := "搜索结果采集失败" }, Option.none, [Event.fetch])) res
    match err with
    | Option.some e =>
      ({ r with message := "搜索时出现错误: " ++ e }, Option.none, l)
    | Option.none => (r, Option.none, l)

/-- Lines 672-688: `_handle_hot_action`. -/
def handleHotAction (env : Env) (res : DLResult) : HOut :=
  let (r, err, l) := withRecord env.acquireRecord (fun res =>
    match env.hotBatch with
    | .error e => (res, Option.some e, [Event.fetch])
    | .ok data =>
      if data.truthy then
        ({ res with
            success := true
            downloaded_count := data.count
            message := "成功采集热榜数据" }, Option.none, [Event.fetch])
      else
        ({ res with message := "热榜数据采集失败" }, Option.none, [Event.fetch])) res
  match err with
  | Option.some e =>
    ({ r with message := "采集热榜数据时出现错误: " ++ e }, Option.none, l)
  | Option.none => (r, Option.none, l)

/-- Lines 712-718: id collection of the `collects` branch. -/
def collectsLoop (env : Env) :
    List String → List String → List String × Option String × List Event
  | [], acc => (acc, Option.none, [])
  | url :: rest, acc =>
    let u := pystrip url
    if u = "" then collectsLoop env rest acc
    else
      match env.linksCollects u with
      | .error e => (acc, Option.some e, [Event.extract])
      | .ok ids =>
        let (a, err, l) := collectsLoop env rest (acc ++ ids)
        (a, err, Event.extract :: l)

/-- Lines 726-731: the shared `if collection_data:` tail of
`_handle_collection_action`. -/
def collFinish (action : String) (data : PyData) (res : DLResult) : DLResult :=
  if data.truthy then
    { res with
        success := true
        downloaded_count := data.count
        message := "成功处理" ++ action ++ "数据" }
  else
    { res with message := action ++ "数据处理失败" }

/-- Lines 691-734: `_handle_collection_action` (actions `collection`,
`collection_music`, `collects`).  The recorder session wraps the whole
body and sits inside the handler's `try`. -/
def handleCollectionAction (env : Env) (action : String) (urls : List String)
    (res : DLResult) : HOut :=
  let (r, err, l) := withRecord env.acquireRecord (fun res =>
    if action = "collection" then
      match env.collectionBatch with
      | .error e => (res, Option.some e, [Event.fetch])
      | .ok data => (collFinish action data res, Option.none, [Event.fetch])
    else if action = "collection_music" then
      match env.collectionMusicBatch with
      | .error e => (res, Option.some e, [Event.fetch])
      | .ok data => (collFinish action data res, Option.none, [Event.fetch])
    else
      if urls.isEmpty then
        ({ res with message := "未提供有效的收藏夹链接" }, Option.none, [])
      else
        let (ids, cerr, lc) := collectsLoop env urls []
        match cerr with
        | Option.some e => (res, Option.some e, lc)
        | Option.none =>
          if ids.isEmpty then
            ({ res with message := "没有提取到有效的收藏夹ID" }, Option.none, lc)
          else
            match env.collectsBatch ids with
            | .error e => (res, Option.some e, lc ++ [Event.fetch])
            | .ok data =>
              (collFinish action data res, Option.none, lc ++ [Event.fetch])) res
  match err with
  | Option.some e =>
    ({ r with message := "处理" ++ action ++ "时出现错误: " ++ e }, Option.none, l)
  | Option.none => (r, Option.none, l)

/-- Lines 259-299: the action-dispatch chain.  The fourth component is
`true` when the branch executed a `return result` inside the `try`
(the platform-unsupported early returns), which skips `close_client`. -/
def dispatchAction (env : Env) (action : String) (urls : List String)
    (kw : Kwargs) (res : DLResult) : DLResult × Option String × List Event × Bool :=
  if action = "detail" || action = "detail_unofficial" then
    let (r, e, l) := handleDetailAction env action urls kw.tiktok res
    (r, e, l, false)
  else if action = "account" then
    let (r, e, l) := handleAccountAction env urls kw.tiktok kw.account_tab res
    (r, e, l, false)
  else if action = "live" then
    let (r, e, l) := handleLiveAction env urls kw.tiktok res
    (r, e, l, false)
  else if action = "comment" then
    if kw.tiktok then
      ({ res with message := "TikTok平台暂不支持评论采集功能" }, Option.none, [], true)
    else
      let (r, e, l) := handleCommentAction env urls (getMaxPages kw) res
      (r, e, l, false)
  else if action = "mix" then
    let (r, e, l) := handleMixAction env urls kw.tiktok res
    (r, e, l, false)
  else if action = "user" then
    if kw.tiktok then
      ({ res with message := "TikTok平台暂不支持用户信息采集功能" }, Option.none, [], true)
    else
      let (r, e, l) := handleUserAction env urls res
      (r, e, l, false)
  else if action = "search" then
    if kw.tiktok then
      ({ res with message := "TikTok平台暂不支持搜索功能" }, Option.none, [], true)
    else
      let (r, e, l) := handleSearchAction env kw.search_keyword kw.search_type res
      (r, e, l, false)
  else if action = "hot" then
    if kw.tiktok then
      ({ res with message := "TikTok平台暂不支持热榜功能" }, Option.none, [], true)
    else
      let (r, e, l) := handleHotAction env res
      (r, e, l, false)
  else
    if kw.tiktok then
      ({ res with message := "TikTok平台暂不支持收藏功能" }, Option.none, [], true)
    else
      let (r, e, l) := handleCollectionAction env action urls res
      (r, e, l, false)

/-- Lines 301-306: `close_client` (only on fall-through paths) and the
outer `except Exception` boundary, which keeps the partially mutated
result and only overwrites its message. -/
def apiFinish (env : Env) : DLResult × Option String × List Event × Bool →
    DLResult × List Event
  | (r, Option.some e, l, _) =>
    ({ r with message := "初始化过程中出现错误: " ++ e }, l)
  | (r, Option.none, l, early) =>
    if early then (r, l)
    else
      match env.closeClient with
      | .error e => ({ r with message := "初始化过程中出现错误: " ++ e }, l)
      | .ok _ => (r, l)

/-- Lines 66-308: `API_download(cookie, action, **kwargs)`.  Returns the
result dictionary and the event log of the run.  The `cookie` string is
forwarded to `Parameter` (part of `Env.setup`) and does not influence the
dispatch logic. -/
def API_download (env : Env) (cookie action : String) (kw : Kwargs) :
    DLResult × List Event :=
  if !validActions.contains action then
    ({ success := false
       message := "无效的action参数: " ++ action ++ "。支持的操作: " ++
         String.intercalate ", " validActions
       downloaded_count := 0
       failed_count := 0
       details := [] }, [])
  else
    let res := initResult
    if inputActions.contains action && !urlsTruthy kw.urls then
      ({ res with message := action ++ "操作需要提供urls参数" }, [])
    else if action = "search" && pystrip kw.search_keyword = "" then
      ({ res with message := "search操作需要提供search_keyword参数" }, [])
    else
      let rawUrls := kw.urls.getD (PyUrls.pystr "")
      match (if urlActions.contains action then normalizeUrls rawUrls
             else Except.ok []) with
      | .error m => ({ res with message := m }, [])
      | .ok urls =>
        match env.setup with
        | .error e => ({ res with message := "初始化过程中出现错误: " ++ e }, [])
        | .ok _ => apiFinish env (dispatchAction env action urls kw res)

/-- A benign environment: every collaborator succeeds and every extractor
finds one identifier. -/
def envIdle : Env where
  setup := .ok ()
  acquireRecord := .ok ()
  linksRun := fun _ => .ok ["id"]
  linksRunTiktok := fun _ => .ok ["id"]
  linksRunLive := fun _ => .ok ["id"]
  linksRunLiveTiktok := fun _ => .ok ["id"]
  linksUser := fun _ => .ok ["uid"]
  linksUserTiktok := fun _ => .ok ["uid"]
  linksMix := fun _ => .ok (false, ["mid"])
  linksMixTiktok := fun _ => .ok (true, ["mid"])
  linksCollects := fun _ => .ok ["cid"]
  handleDetail := fun _ => .ok ()
  handleDetailUnofficial := fun _ => .ok ()
  dealAccountWorks := fun _ _ => .ok (.pylist 1)
  dealAccountWorksTiktok := fun _ _ => .ok (.pylist 1)
  mixBatch := fun _ => .ok (.pylist 1)
  mixBatchTiktok := fun _ => .ok (.pylist 1)
  commentHandle := fun _ _ => .ok ()
  getLiveData := fun _ => .ok ()
  getLiveDataTiktok := fun _ => .ok ()
  extractorLive := fun _ => .ok [true]
  showAndDownloadLive := fun _ => .ok ()
  accountDetailBatch := fun _ => .ok true
  userSearchBatch := fun _ => .ok (.pylist 1)
  videoSearchBatch := fun _ => .ok (.pylist 1)
  liveSearchBatch := fun _ => .ok (.pylist 1)
  generalSearchBatch := fun _ => .ok (.pylist 1)
  hotBatch := .ok (.pylist 1)
  collectionBatch := .ok (.pylist 1)
  collectionMusicBatch := .ok (.pylist 1)
  collectsBatch := fun _ => .ok (.pylist 1)
  closeClient := .ok ()

/-! ### Specification functions for the detail loop -/

/-- Number of input items of the detail loop recorded as failed
(extraction raised, or extracted no identifier). -/
def detailFailedCount (ex : String → Except String (List String)) :
    List String → Nat
  | [] => 0
  | url :: rest =>
    if pystrip url = "" then detailFailedCount ex rest
    else
      match ex (pystrip url) with
      | .ok ids => (if ids.isEmpty then 1 else 0) + detailFailedCount ex rest
      | .error _ => detailFailedCount ex rest + 1

/-- The pooled identifier list (`all_ids`) collected by the detail loop. -/
def detailExtractedIds (ex : String → Except String (List String)) :
    List String → List String
  | [] => []
  | url :: rest =>
    if pystrip url = "" then detailExtractedIds ex rest
    else
      match ex (pystrip url) with
      | .ok ids => ids ++ detailExtractedIds ex rest
      | .error _ => detailExtractedIds ex rest

/-- The `details` entries appended by the detail loop, in input order. -/
def detailDetailsList (ex : String → Except String (List String)) :
    List String → List Detail
  | [] => []
  | url :: rest =>
    if pystrip url = "" then detailDetailsList ex rest
    else
      match ex (pystrip url) with
      | .ok ids =>
        (if ids.isEmpty then
          { url := pystrip url, status := "failed",
            extracted_ids := Option.some [],
            error := Option.some "无法提取作品ID" }
        else
          ({ url := pystrip url, status := "success",
             extracted_ids := Option.some ids } : Detail)) :: detailDetailsList ex rest
      | .error e =>
        { url := pystrip url, status := "failed",
          extracted_ids := Option.some [],
          error := Option.some e } :: detailDetailsList ex rest

/-- The event log of the detail loop: one extractor call per non-blank url. -/
def detailLog : List String → List Event
  | [] => []
  | url :: rest =>
    if pystrip url = "" then detailLog rest
    else Event.extract :: detailLog rest

/-- Characterization of the detail loop in terms of the specification
functions. -/
theorem detailLoop_eq (ex : String → Except String (List String))
    (urls : List String) :
    ∀ (res : DLResult) (allIds : List String),
      detailLoop ex urls res allIds =
        ({ res with
            details := res.details ++ detailDetailsList ex urls
            failed_count := res.failed_count + detailFailedCount ex urls },
         allIds ++ detailExtractedIds ex urls,
         detailLog urls) := by
  induction urls with
  | nil =>
    intro res allIds
    simp [detailLoop, detailDetailsList, detailFailedCount, detailExtractedIds,
      detailLog]
  | cons url rest ih =>
    intro res allIds
    by_cases hu : pystrip url = ""
    · simp [detailLoop, detailDetailsList, detailFailedCount, detailExtractedIds,
        detailLog, hu, ih]
    · cases hex : ex (pystrip url) with
      | ok ids =>
        by_cases hids : ids.isEmpty
        · simp [detailLoop, detailDetailsList, detailFailedCount,
            detailExtractedIds, detailLog, hu, hex, hids, ih,
            List.isEmpty_iff.mp hids, Nat.add_assoc, Nat.add_comm]
        · simp [detailLoop, detailDetailsList, detailFailedCount,
            detailExtractedIds, detailLog, hu, hex, hids, ih, List.append_assoc]
      | error e =>
        simp [detailLoop, detailDetailsList, detailFailedCount,
          detailExtractedIds, detailLog, hu, hex, ih, Nat.add_assoc,
          Nat.add_comm]

/-- Environment in which the account extractor finds no user identifier
for any url. -/
def envNoUser : Env :=
  { envIdle with linksUser := fun _ => .ok [] }

/-- Environment in which the detail extractor finds two identifiers per
url. -/
def envTwoIds : Env :=
  { envIdle with linksRun := fun _ => .ok ["id1", "id2"] }

/-- Environment in which the account extractor raises exactly on url
`"b"`. -/
def envUserRaisesB : Env :=
  { envIdle with
      linksUser := fun s => if s = "b" then .error "boom" else .ok [s] }

/-! ### Claim theorems -/

/-- Claim C1: for every cookie string, action string and kwargs mapping,
`API_download` returns a result dictionary with the fields `success`,
`message`, `downloaded_count`, `failed_count` and `details`, and never
raises past its boundary (its type is total: the outer `except` of lines
305-306 converts every escaped exception into a result dictionary). -/
theorem API_download_total_result (env : Env) (cookie action : String)
    (kw : Kwargs) :
    ∃ (s : Bool) (m : String) (dc fc : Nat) (dl : List Detail)
      (log : List Event),
      API_download env cookie action kw =
        ({ success := s, message := m, downloaded_count := dc,
           failed_count := fc, details := dl }, log) :=
  ⟨_, _, _, _, _, _, rfl⟩

/-- Claim C5: an action outside the registered set returns
`success = false`, zero counts, empty details, a message enumerating the
supported action set, and an empty event log (no executor, handler or
capability-adapter call). -/
theorem API_download_unknown_action (env : Env) (cookie action : String)
    (kw : Kwargs) (h : action ∉ validActions) :
    API_download env cookie action kw =
      ({ success := false
         message := "无效的action参数: " ++ action ++ "。支持的操作: " ++
           String.intercalate ", " validActions
         downloaded_count := 0
         failed_count := 0
         details := [] }, []) := by
  have hc : validActions.contains action = false := by
    simpa using h
  simp [API_download, hc]
  exact fun hmem => absurd hmem h

/-- Witness for C5 at the concrete unknown action `"bogus"`. -/
theorem API_download_unknown_action_witness :
    API_download envIdle "c" "bogus" {} =
      ({ success := false
         message := "无效的action参数: " ++ "bogus" ++ "。支持的操作: " ++
           String.intercalate ", " validActions
         downloaded_count := 0
         failed_count := 0
         details := [] }, []) :=
  API_download_unknown_action envIdle "c" "bogus" {} (by decide)

/-- Claim C2 (behaviour of the code at the failing input): for the
`account` action whose single input yields no user identifier, the loop
records the item as failed (`failed_count = 1`, `downloaded_count = 0`,
zero usable results), yet line 435 sets `success = True`
unconditionally after the loop. -/
theorem account_success_despite_zero_results :
    (API_download envNoUser "c" "account"
        { urls := Option.some (.pystr "u") }).1 =
      { success := true
        message := "账号作品处理完成"
        downloaded_count := 0
        failed_count := 1
        details := [{ url := "u", status := "failed",
                      error := Option.some "无法提取账号信息" }] } := by decide

/-- Counterexample to claim C3 as stated: a `detail` call with exactly one
normalized input whose extraction yields two identifiers returns
`downloaded_count + failed_count = 2`, which differs from the number of
normalized input items (1). -/
theorem detail_item_count_counterexample :
    (API_download envTwoIds "c" "detail"
          { urls := Option.some (.pystr "u") }).1.downloaded_count +
      (API_download envTwoIds "c" "detail"
          { urls := Option.some (.pystr "u") }).1.failed_count = 2 ∧
    normalizeUrls (.pystr "u") = .ok ["u"] ∧
    ¬ (2 = List.length ["u"]) := by decide

/-- Applying `apiFinish` to a non-exceptional handler outcome keeps the success
flag (only the message can change, when `close_client` raises). -/
theorem apiFinish_success (env : Env) (r : DLResult) (l : List Event)
    (early : Bool) :
    (apiFinish env (r, Option.none, l, early)).1.success = r.success := by
  cases early <;> cases hc : env.closeClient <;> simp [apiFinish, hc]

/-- Applying `apiFinish` to a non-exceptional handler outcome keeps the download
count. -/
theorem apiFinish_downloaded (env : Env) (r : DLResult) (l : List Event)
    (early : Bool) :
    (apiFinish env (r, Option.none, l, early)).1.downloaded_count =
      r.downloaded_count := by
  cases early <;> cases hc : env.closeClient <;> simp [apiFinish, hc]

/-- Applying `apiFinish` to a non-exceptional handler outcome keeps the failure
count. -/
theorem apiFinish_failed (env : Env) (r : DLResult) (l : List Event)
    (early : Bool) :
    (apiFinish env (r, Option.none, l, early)).1.failed_count =
      r.failed_count := by
  cases early <;> cases hc : env.closeClient <;> simp [apiFinish, hc]

/-- Applying `apiFinish` to a non-exceptional handler outcome keeps the details
list. -/
theorem apiFinish_details (env : Env) (r : DLResult) (l : List Event)
    (early : Bool) :
    (apiFinish env (r, Option.none, l, early)).1.details = r.details := by
  cases early <;> cases hc : env.closeClient <;> simp [apiFinish, hc]

/-- Applying `apiFinish` keeps the event log. -/
theorem apiFinish_log (env : Env) (r : DLResult) (err : Option String)
    (l : List Event) (early : Bool) :
    (apiFinish env (r, err, l, early)).2 = l := by
  cases err <;> cases early <;> cases hc : env.closeClient <;> simp [apiFinish, hc]

/-- Reduction of the facade for a `detail` or `detail_unofficial` call
with a well-formed url list: validation passes and the detail handler
runs on the list. -/
theorem API_detail_list (env : Env) (cookie action : String) (kw : Kwargs)
    (xs : List String)
    (ha : action = "detail" ∨ action = "detail_unofficial")
    (hurls : kw.urls = Option.some (.pylist xs)) (hne : xs ≠ [])
    (hany : xs.any (fun u => pystrip u != "") = true)
    (hsetup : env.setup = .ok ()) :
    API_download env cookie action kw =
      apiFinish env
        (let (r, e, l) := handleDetailAction env action xs kw.tiktok initResult
         (r, e, l, false)) := by
  have hne' : xs.isEmpty = false := by
    cases xs with
    | nil => exact absurd rfl hne
    | cons a t => rfl
  rcases ha with rfl | rfl <;>
    simp [API_download, hurls, hsetup, urlsTruthy, normalizeUrls, hne', hany,
      validActions, inputActions, urlActions, dispatchAction]

/-- Claim C3 (amended): for the `detail` action with at least one valid
input, `downloaded_count + failed_count` equals the number of
extraction-failed items plus the total number of extracted identifiers —
so it equals the number of normalized input items exactly when every
successful extraction yields one identifier. -/
theorem detail_counts_amended (env : Env) (cookie : String) (kw : Kwargs)
    (xs : List String)
    (hurls : kw.urls = Option.some (.pylist xs)) (hne : xs ≠ [])
    (hany : xs.any (fun u => pystrip u != "") = true)
    (htk : kw.tiktok = false)
    (hsetup : env.setup = .ok ()) (hacq : env.acquireRecord = .ok ()) :
    (API_download env cookie "detail" kw).1.downloaded_count +
      (API_download env cookie "detail" kw).1.failed_count =
      detailFailedCount env.linksRun xs +
        (detailExtractedIds env.linksRun xs).length := by
  rw [API_detail_list env cookie "detail" kw xs (Or.inl rfl) hurls hne hany
    hsetup]
  by_cases hids : detailExtractedIds env.linksRun xs = []
  · simp [handleDetailAction, htk, detailLoop_eq, hids, initResult,
      apiFinish_downloaded, apiFinish_failed]
  · cases hcall : env.handleDetail (detailExtractedIds env.linksRun xs) with
    | ok u =>
      simp [handleDetailAction, htk, detailLoop_eq, hids, withRecord, hacq,
        hcall, initResult, apiFinish_downloaded, apiFinish_failed]
      omega
    | error e =>
      simp [handleDetailAction, htk, detailLoop_eq, hids, withRecord, hacq,
        hcall, initResult, apiFinish_downloaded, apiFinish_failed]

/-- Witness for the amended C3 at a concrete input: one url extracting
two identifiers gives `downloaded + failed = 0 + 2 = 2`. -/
theorem detail_counts_amended_witness :
    ((API_download envTwoIds "c" "detail"
          { urls := Option.some (.pylist ["u"]) }).1.downloaded_count +
        (API_download envTwoIds "c" "detail"
          { urls := Option.some (.pylist ["u"]) }).1.failed_count =
        detailFailedCount envTwoIds.linksRun ["u"] +
          (detailExtractedIds envTwoIds.linksRun ["u"]).length) ∧
    detailFailedCount envTwoIds.linksRun ["u"] +
      (detailExtractedIds envTwoIds.linksRun ["u"]).length = 2 :=
  ⟨detail_counts_amended envTwoIds "c" _ ["u"] rfl (by decide) (by decide)
      rfl rfl rfl,
   by decide⟩

/-- Pushing one url onto the detail loop prepends at most one entry to
its detail list. -/
theorem detailDetailsList_cons (ex : String → Except String (List String))
    (a : String) (t : List String) :
    ∃ pre : List Detail,
      detailDetailsList ex (a :: t) = pre ++ detailDetailsList ex t := by
  by_cases ha : pystrip a = ""
  · exact ⟨[], by simp [detailDetailsList, ha]⟩
  · cases hex : ex (pystrip a) with
    | ok ids =>
      refine ⟨[if ids.isEmpty then
        { url := pystrip a
          status := "failed"
          extracted_ids := Option.some []
          error := Option.some "无法提取作品ID" }
      else
        { url := pystrip a
          status := "success"
          extracted_ids := Option.some ids }], ?_⟩
      simp [detailDetailsList, ha, hex]
    | error e =>
      refine ⟨[{ url := pystrip a
                 status := "failed"
                 extracted_ids := Option.some []
                 error := Option.some e }], ?_⟩
      simp [detailDetailsList, ha, hex]

/-- Every url whose extraction succeeded with a nonempty identifier list
keeps a `success` entry in the detail list. -/
theorem detail_success_mem (ex : String → Except String (List String))
    (urls : List String) (url : String) (ids : List String)
    (hmem : url ∈ urls) (hnb : pystrip url ≠ "")
    (hok : ex (pystrip url) = .ok ids) (hne : ids ≠ []) :
    ({ url := pystrip url, status := "success",
       extracted_ids := Option.some ids } : Detail) ∈
      detailDetailsList ex urls := by
  induction urls with
  | nil => cases hmem
  | cons a t ih =>
    rcases List.mem_cons.mp hmem with rfl | hmem2
    · have hie : ids.isEmpty = false := by
        cases ids with
        | nil => exact absurd rfl hne
        | cons b s => rfl
      simp [detailDetailsList, hnb, hok, hie]
    · obtain ⟨pre, hpre⟩ := detailDetailsList_cons ex a t
      rw [hpre]
      exact List.mem_append_right pre (ih hmem2)

/-- The detail loop's log consists of extractor events only. -/
theorem detailLog_count (urls : List String) (ev : Event)
    (h : ev ≠ Event.extract) : (detailLog urls).count ev = 0 := by
  induction urls with
  | nil => simp [detailLog]
  | cons a t ih =>
    by_cases ha : pystrip a = ""
    · simpa [detailLog, ha] using ih
    · simp [detailLog, ha, List.count_cons, ih, h]

/-- Claim C4 (amended): in the detail-style batch, per-item extraction
failure (raise or empty identifier set) is isolated — the failing item is
recorded with its error text and the loop continues — so a batch of 3
inputs where only item 2's extraction fails (with non-empty error text)
yields `details` of length 3, `failed_count = 1` and `success = true`
when the pooled download succeeds.  (In the account-style batch only the
empty-extraction case is isolated; a raising extraction aborts the loop,
see the counterexample.) -/
theorem detail_isolation_amended (env : Env) (cookie : String) (kw : Kwargs)
    (u1 u2 u3 : String) (ids1 ids3 : List String) (e : String)
    (hurls : kw.urls = Option.some (.pylist [u1, u2, u3]))
    (hb1 : pystrip u1 ≠ "") (hb2 : pystrip u2 ≠ "") (hb3 : pystrip u3 ≠ "")
    (htk : kw.tiktok = false)
    (hsetup : env.setup = .ok ()) (hacq : env.acquireRecord = .ok ())
    (h1 : env.linksRun (pystrip u1) = .ok ids1) (hne1 : ids1 ≠ [])
    (h2 : env.linksRun (pystrip u2) = .error e) (he : e ≠ "")
    (h3 : env.linksRun (pystrip u3) = .ok ids3) (hne3 : ids3 ≠ [])
    (hok : env.handleDetail (ids1 ++ ids3) = .ok ()) :
    (API_download env cookie "detail" kw).1.details.length = 3 ∧
    (API_download env cookie "detail" kw).1.failed_count = 1 ∧
    (API_download env cookie "detail" kw).1.success = true ∧
    ((API_download env cookie "detail" kw).1.details.get? 1 =
      Option.some { url := pystrip u2, status := "failed",
                    extracted_ids := Option.some [], error := Option.some e } ∧
      e ≠ "") := by
  have hie1 : ids1.isEmpty = false := by
    cases ids1 with
    | nil => exact absurd rfl hne1
    | cons b s => rfl
  have hie3 : ids3.isEmpty = false := by
    cases ids3 with
    | nil => exact absurd rfl hne3
    | cons b s => rfl
  have hxids : detailExtractedIds env.linksRun [u1, u2, u3] = ids1 ++ ids3 := by
    simp [detailExtractedIds, hb1, hb2, hb3, h1, h2, h3]
  have hfc : detailFailedCount env.linksRun [u1, u2, u3] = 1 := by
    simp [detailFailedCount, hb1, hb2, hb3, h1, h2, h3, hie1, hie3]
  have hdl : detailDetailsList env.linksRun [u1, u2, u3] =
      [{ url := pystrip u1, status := "success", extracted_ids := Option.some ids1 },
       { url := pystrip u2, status := "failed", extracted_ids := Option.some [],
         error := Option.some e },
       { url := pystrip u3, status := "success", extracted_ids := Option.some ids3 }] := by
    simp [detailDetailsList, hb1, hb2, hb3, h1, h2, h3, hie1, hie3]
  have hids : detailExtractedIds env.linksRun [u1, u2, u3] ≠ [] := by
    rw [hxids]
    simp [hne1]
  rw [API_detail_list env cookie "detail" kw [u1, u2, u3] (Or.inl rfl) hurls
    (by simp) (by simp [hb1]) hsetup]
  simp [handleDetailAction, htk, detailLoop_eq, hxids, hfc, hdl, hids,
    hne1, hne3, he, withRecord, hacq, hok, apiFinish_success, apiFinish_failed,
    apiFinish_details, initResult]

/-- Environment in which the detail extractor raises exactly on url
`"b"` and otherwise finds the url itself as identifier. -/
def envRunRaisesB : Env :=
  { envIdle with
      linksRun := fun s => if s = "b" then .error "boom" else .ok [s] }

/-- Witness for the amended C4 at the concrete batch `["a", "b", "c"]`
where only `"b"`'s extraction raises. -/
theorem detail_isolation_amended_witness :
    (API_download envRunRaisesB "c" "detail"
        { urls := Option.some (.pylist ["a", "b", "c"]) }).1.details.length = 3 ∧
    (API_download envRunRaisesB "c" "detail"
        { urls := Option.some (.pylist ["a", "b", "c"]) }).1.failed_count = 1 ∧
    (API_download envRunRaisesB "c" "detail"
        { urls := Option.some (.pylist ["a", "b", "c"]) }).1.success = true ∧
    ((API_download envRunRaisesB "c" "detail"
        { urls := Option.some (.pylist ["a", "b", "c"]) }).1.details.get? 1 =
      Option.some { url := pystrip "b", status := "failed",
                    extracted_ids := Option.some [],
                    error := Option.some "boom" } ∧
      ("boom" : String) ≠ "") :=
  detail_isolation_amended envRunRaisesB "c" _ "a" "b" "c" ["a"] ["c"] "boom"
    rfl (by decide) (by decide) (by decide) rfl rfl rfl
    (by decide) (by decide) (by decide) (by decide) (by decide) (by decide) rfl

/-- Claim C10: for the `detail` and `detail_unofficial` actions,
identifiers from all input urls are pooled into one downstream download
call (one fetch event; `_handle_detail` resp. `handle_detail_unofficial`);
if that call raises after `n` identifiers were extracted, `failed_count`
grows by `n` and `success` stays false, while every url whose extraction
succeeded keeps a `success` detail entry — so per-url statuses can
disagree with the top-level verdict. -/
theorem detail_pooled_download_failure (env : Env) (cookie action : String)
    (kw : Kwargs) (xs : List String) (e : String)
    (ha : action = "detail" ∨ action = "detail_unofficial")
    (hurls : kw.urls = Option.some (.pylist xs)) (hne : xs ≠ [])
    (hany : xs.any (fun u => pystrip u != "") = true)
    (htk : kw.tiktok = false)
    (hsetup : env.setup = .ok ()) (hacq : env.acquireRecord = .ok ())
    (hclose : env.closeClient = .ok ())
    (hids : detailExtractedIds env.linksRun xs ≠ [])
    (hfail : (if action = "detail_unofficial" then env.handleDetailUnofficial
        else env.handleDetail)
        (detailExtractedIds env.linksRun xs) = .error e) :
    (API_download env cookie action kw).1.success = false ∧
    (API_download env cookie action kw).1.downloaded_count = 0 ∧
    (API_download env cookie action kw).1.failed_count =
      detailFailedCount env.linksRun xs +
        (detailExtractedIds env.linksRun xs).length ∧
    (API_download env cookie action kw).1.message = "下载过程中出现错误: " ++ e ∧
    (API_download env cookie action kw).2.count Event.fetch = 1 ∧
    ∀ url ids, url ∈ xs → pystrip url ≠ "" →
      env.linksRun (pystrip url) = .ok ids → ids ≠ [] →
      ({ url := pystrip url, status := "success",
         extracted_ids := Option.some ids } : Detail) ∈
        (API_download env cookie action kw).1.details := by
  rcases ha with rfl | rfl
  · rw [API_detail_list env cookie "detail" kw xs (Or.inl rfl) hurls hne hany
      hsetup]
    simp at hfail
    simp only [handleDetailAction, htk, Bool.false_eq_true, if_false,
      detailLoop_eq, List.nil_append]
    refine ⟨?_, ?_, ?_, ?_, ?_, ?_⟩ <;>
      simp [hids, withRecord, hacq, hfail, apiFinish_success, apiFinish_failed,
        apiFinish_downloaded, apiFinish_details, apiFinish_log, apiFinish,
        hclose, initResult, List.count_append, List.count_cons,
        detailLog_count _ _ (by simp : Event.fetch ≠ Event.extract)]
    intro url ids hmem hnb hok hne2
    exact detail_success_mem env.linksRun xs url ids hmem hnb hok hne2
  · rw [API_detail_list env cookie "detail_unofficial" kw xs (Or.inr rfl)
      hurls hne hany hsetup]
    simp at hfail
    simp only [handleDetailAction, htk, Bool.false_eq_true, if_false,
      detailLoop_eq, List.nil_append]
    refine ⟨?_, ?_, ?_, ?_, ?_, ?_⟩ <;>
      simp [hids, withRecord, hacq, hfail, apiFinish_success, apiFinish_failed,
        apiFinish_downloaded, apiFinish_details, apiFinish_log, apiFinish,
        hclose, initResult, List.count_append, List.count_cons,
        detailLog_count _ _ (by simp : Event.fetch ≠ Event.extract)]
    intro url ids hmem hnb hok hne2
    exact detail_success_mem env.linksRun xs url ids hmem hnb hok hne2

/-- Environment in which extraction finds two identifiers per url but the
pooled `_handle_detail` download call raises. -/
def envPoolFail : Env :=
  { envIdle with
      linksRun := fun _ => .ok ["id1", "id2"]
      handleDetail := fun _ => .error "down" }

/-- Environment in which extraction finds two identifiers per url but the
pooled `handle_detail_unofficial` download call raises. -/
def envPoolFailU : Env :=
  { envIdle with
      linksRun := fun _ => .ok ["id1", "id2"]
      handleDetailUnofficial := fun _ => .error "down" }

/-- Witness for C10 at concrete inputs for both actions: one url, two
pooled identifiers, the pooled download raises — failed_count grows by 2,
success false, one fetch call, and the url keeps its success entry, for
`detail` and for `detail_unofficial` alike. -/
theorem detail_pooled_download_failure_witness :
    ((API_download envPoolFail "c" "detail"
        { urls := Option.some (.pylist ["u"]) }).1.success = false ∧
     (API_download envPoolFail "c" "detail"
        { urls := Option.some (.pylist ["u"]) }).1.downloaded_count = 0 ∧
     (API_download envPoolFail "c" "detail"
        { urls := Option.some (.pylist ["u"]) }).1.failed_count = 2 ∧
     (API_download envPoolFail "c" "detail"
        { urls := Option.some (.pylist ["u"]) }).1.message =
       "下载过程中出现错误: " ++ "down" ∧
     (API_download envPoolFail "c" "detail"
        { urls := Option.some (.pylist ["u"]) }).2.count Event.fetch = 1 ∧
     ({ url := "u", status := "success",
        extracted_ids := Option.some ["id1", "id2"] } : Detail) ∈
       (API_download envPoolFail "c" "detail"
         { urls := Option.some (.pylist ["u"]) }).1.details) ∧
    ((API_download envPoolFailU "c" "detail_unofficial"
        { urls := Option.some (.pylist ["u"]) }).1.success = false ∧
     (API_download envPoolFailU "c" "detail_unofficial"
        { urls := Option.some (.pylist ["u"]) }).1.downloaded_count = 0 ∧
     (API_download envPoolFailU "c" "detail_unofficial"
        { urls := Option.some (.pylist ["u"]) }).1.failed_count = 2 ∧
     (API_download envPoolFailU "c" "detail_unofficial"
        { urls := Option.some (.pylist ["u"]) }).1.message =
       "下载过程中出现错误: " ++ "down" ∧
     (API_download envPoolFailU "c" "detail_unofficial"
        { urls := Option.some (.pylist ["u"]) }).2.count Event.fetch = 1 ∧
     ({ url := "u", status := "success",
        extracted_ids := Option.some ["id1", "id2"] } : Detail) ∈
       (API_download envPoolFailU "c" "detail_unofficial"
         { urls := Option.some (.pylist ["u"]) }).1.details) := by
  have H := detail_pooled_download_failure envPoolFail "c" "detail"
    { urls := Option.some (.pylist ["u"]) } ["u"] "down" (Or.inl rfl) rfl
    (by decide) (by decide) rfl rfl rfl rfl (by decide) (by decide)
  have HU := detail_pooled_download_failure envPoolFailU "c" "detail_unofficial"
    { urls := Option.some (.pylist ["u"]) } ["u"] "down" (Or.inr rfl) rfl
    (by decide) (by decide) rfl rfl rfl rfl (by decide) (by decide)
  exact ⟨⟨H.1, H.2.1, by decide, H.2.2.2.1, H.2.2.2.2.1,
      H.2.2.2.2.2 "u" ["id1", "id2"] (by decide) (by decide) (by decide)
        (by decide)⟩,
    ⟨HU.1, HU.2.1, by decide, HU.2.2.2.1, HU.2.2.2.2.1,
      HU.2.2.2.2.2 "u" ["id1", "id2"] (by decide) (by decide) (by decide)
        (by decide)⟩⟩

/-- Counterexample to claim C4 as stated: in the `account` batch
`["a", "b", "c"]` where only item 2's extraction raises, the loop aborts:
the result has `details` of length 1 (not 3), `failed_count = 0` (not 1)
and `success = false` (not true). -/
theorem account_isolation_counterexample :
    (API_download envUserRaisesB "c" "account"
        { urls := Option.some (.pylist ["a", "b", "c"]) }).1.success = false ∧
    (API_download envUserRaisesB "c" "account"
        { urls := Option.some (.pylist ["a", "b", "c"]) }).1.details.length = 1 ∧
    (API_download envUserRaisesB "c" "account"
        { urls := Option.some (.pylist ["a", "b", "c"]) }).1.failed_count = 0 := by
  decide

/-- The actions rejected when the alternate-platform flag `tiktok` is
set (lines 268-299). -/
def platformRestricted : List String :=
  ["comment", "user", "search", "hot", "collection", "collection_music", "collects"]

/-- The per-action platform-unsupported message. -/
def platformMsg : String → String
  | "comment" => "TikTok平台暂不支持评论采集功能"
  | "user" => "TikTok平台暂不支持用户信息采集功能"
  | "search" => "TikTok平台暂不支持搜索功能"
  | "hot" => "TikTok平台暂不支持热榜功能"
  | _ => "TikTok平台暂不支持收藏功能"

/-- Claim C6: a platform-restricted action invoked with `tiktok = true`
(and otherwise valid inputs) returns `success = false` with the
platform-unsupported message, zero counts, and an empty event log — in
particular zero network-bound capability-adapter calls. -/
theorem API_download_platform_restricted (env : Env) (cookie action : String)
    (kw : Kwargs) (u : String)
    (ha : action ∈ platformRestricted) (htk : kw.tiktok = true)
    (hsetup : env.setup = .ok ())
    (hu : kw.urls = Option.some (.pystr u)) (hut : pystrip u ≠ "")
    (hk : pystrip kw.search_keyword ≠ "") :
    API_download env cookie action kw =
      ({ success := false
         message := platformMsg action
         downloaded_count := 0
         failed_count := 0
         details := [] }, []) := by
  have hu0 : u ≠ "" := by
    intro h
    exact hut (by rw [h]; rfl)
  fin_cases ha <;>
    simp [API_download, dispatchAction, platformMsg, hu, hu0, hut, htk, hk,
      hsetup, urlsTruthy, normalizeUrls, apiFinish, validActions, inputActions,
      urlActions, initResult]

/-- Witness for C6 at the concrete action `"comment"` with `tiktok = true`. -/
theorem API_download_platform_restricted_witness :
    API_download envIdle "c" "comment"
        { urls := Option.some (.pystr "u"), tiktok := true,
          search_keyword := "k" } =
      ({ success := false
         message := platformMsg "comment"
         downloaded_count := 0
         failed_count := 0
         details := [] }, []) :=
  API_download_platform_restricted envIdle "c" "comment"
    { urls := Option.some (.pystr "u"), tiktok := true, search_keyword := "k" }
    "u" (by decide) rfl rfl rfl (by decide) (by decide)

/-- Stripping the empty string gives the empty string. -/
theorem pystrip_empty : pystrip "" = "" := rfl

/-- The degenerate `urls` shapes of claim C7: absent, explicit `None`,
empty string, empty list, or a list whose elements are all blank after
trimming. -/
def degenerateUrls : Option PyUrls → Prop
  | Option.none => True
  | Option.some (PyUrls.pystr s) => s = ""
  | Option.some (PyUrls.pylist xs) => xs = [] ∨ ∀ u ∈ xs, pystrip u = ""
  | Option.some PyUrls.pynone => True
  | Option.some (PyUrls.pyother _) => False

/-- Claim C7: for every url-requiring action, a degenerate `urls`
argument produces a validation failure — `success = false`, zero counts,
empty details, a non-empty explanatory message — with an empty event log
(no crash, no adapter call). -/
theorem API_download_empty_input (env : Env) (cookie action : String)
    (kw : Kwargs) (ha : action ∈ urlActions) (hu : degenerateUrls kw.urls) :
    (API_download env cookie action kw).1.success = false ∧
    (API_download env cookie action kw).1.downloaded_count = 0 ∧
    (API_download env cookie action kw).1.failed_count = 0 ∧
    (API_download env cookie action kw).1.details = [] ∧
    (API_download env cookie action kw).1.message ≠ "" ∧
    (API_download env cookie action kw).2 = [] := by
  fin_cases ha <;>
  · cases hku : kw.urls with
    | none =>
      simp [API_download, hku, urlsTruthy, normalizeUrls, pystrip_empty,
        validActions, inputActions, urlActions, initResult]
    | some pu =>
      cases pu with
      | pystr s =>
        rw [hku] at hu
        simp only [degenerateUrls] at hu
        subst hu
        simp [API_download, hku, urlsTruthy, normalizeUrls, pystrip_empty,
          validActions, inputActions, urlActions, initResult]
      | pylist xs =>
        rw [hku] at hu
        simp only [degenerateUrls] at hu
        rcases hu with rfl | hall
        · simp [API_download, hku, urlsTruthy, normalizeUrls, validActions,
            inputActions, urlActions, initResult]
        · by_cases hxe : xs = []
          · subst hxe
            simp [API_download, hku, urlsTruthy, normalizeUrls, validActions,
              inputActions, urlActions, initResult]
          · have hanyf : (xs.any fun u => pystrip u != "") = false := by
              simp only [List.any_eq_false]
              intro x hx
              simp [hall x hx]
            have hxe2 : xs.isEmpty = false := by
              cases xs with
              | nil => exact absurd rfl hxe
              | cons a t => rfl
            simp [API_download, hku, urlsTruthy, normalizeUrls, hanyf, hxe2,
              validActions, inputActions, urlActions, initResult]
      | pynone =>
        simp [API_download, hku, urlsTruthy, normalizeUrls, validActions,
          inputActions, urlActions, initResult]
      | pyother t =>
        rw [hku] at hu
        simp only [degenerateUrls] at hu

/-- Witness for C7: the `detail` action with `urls` absent. -/
theorem API_download_empty_input_witness :
    (API_download envIdle "c" "detail" {}).1.success = false ∧
    (API_download envIdle "c" "detail" {}).1.downloaded_count = 0 ∧
    (API_download envIdle "c" "detail" {}).1.failed_count = 0 ∧
    (API_download envIdle "c" "detail" {}).1.details = [] ∧
    (API_download envIdle "c" "detail" {}).1.message ≠ "" ∧
    (API_download envIdle "c" "detail" {}).2 = [] :=
  API_download_empty_input envIdle "c" "detail" {} (by decide) trivial

/-- Claim C9: with `max_pages` omitted the code uses the default `1` of
line 129 (not the docstring's 99999), and for the comment action that
value is handed to the comment handler unchanged: the run's log carries
`pages 1` and exactly one data request page bound. -/
theorem comment_default_max_pages (env : Env) (cookie : String) (kw : Kwargs)
    (u : String) (ids : List String)
    (hmp : kw.max_pages = Option.none)
    (htk : kw.tiktok = false)
    (hurls : kw.urls = Option.some (.pystr u)) (hut : pystrip u ≠ "")
    (hsetup : env.setup = .ok ())
    (hids : env.linksRun (pystrip u) = .ok ids) (hne : ids ≠ []) :
    getMaxPages kw = 1 ∧
    (API_download env cookie "comment" kw).2 =
      [Event.extract, Event.pages 1, Event.fetch] := by
  have hu0 : u ≠ "" := by
    intro h
    exact hut (by rw [h]; rfl)
  have hgm : getMaxPages kw = 1 := by simp [getMaxPages, hmp]
  refine ⟨hgm, ?_⟩
  have hiene : ids.isEmpty = false := by
    cases ids with
    | nil => exact absurd rfl hne
    | cons a t => rfl
  cases hch : env.commentHandle ids 1 with
  | ok v =>
    simp [API_download, dispatchAction, handleCommentAction, commentLoop,
      apiFinish_log, hurls, hu0, hut, htk, hsetup, hgm, hids, hiene, hch,
      urlsTruthy, normalizeUrls, validActions, inputActions, urlActions,
      initResult]
  | error e =>
    simp [API_download, dispatchAction, handleCommentAction, commentLoop,
      apiFinish_log, hurls, hu0, hut, htk, hsetup, hgm, hids, hiene, hch,
      urlsTruthy, normalizeUrls, validActions, inputActions, urlActions,
      initResult]

/-- Witness for C9: omitted `max_pages` on a concrete comment call logs
`pages 1`. -/
theorem comment_default_max_pages_witness :
    getMaxPages { urls := Option.some (.pystr "u") } = 1 ∧
    (API_download envIdle "c" "comment"
        { urls := Option.some (.pystr "u") }).2 =
      [Event.extract, Event.pages 1, Event.fetch] :=
  comment_default_max_pages envIdle "c" { urls := Option.some (.pystr "u") }
    "u" ["id"] rfl rfl rfl (by decide) rfl rfl (by decide)

/-! ### Recorder acquire/release accounting -/

/-- The combinator `withRecord` emits one `release` for each (successful) `acquire`,
whatever the body does, provided the body's own log carries no recorder
events. -/
theorem withRecord_bal (acq : Except String Unit) (body : DLResult → HOut)
    (res : DLResult)
    (hb : ∀ r, ((body r).2.2).count Event.acquire = 0 ∧
               ((body r).2.2).count Event.release = 0) :
    ((withRecord acq body res).2.2).count Event.acquire =
      ((withRecord acq body res).2.2).count Event.release := by
  cases acq with
  | error e => simp [withRecord]
  | ok v =>
    rcases hbr : body res with ⟨r, err, l⟩
    have hb2 := hb res
    rw [hbr] at hb2
    simp [withRecord, hbr, List.count_append, List.count_cons, hb2.1, hb2.2]

/-- The comment loop logs extractor events only. -/
theorem commentLoop_count (env : Env) (urls : List String) (ev : Event)
    (h : ev ≠ Event.extract) :
    ∀ acc, ((commentLoop env urls acc).2.2).count ev = 0 := by
  induction urls with
  | nil => intro acc; simp [commentLoop]
  | cons a t ih =>
    intro acc
    by_cases ha : pystrip a = ""
    · simpa [commentLoop, ha] using ih acc
    · cases hex : env.linksRun (pystrip a) with
      | ok ids =>
        rcases hl : commentLoop env t (acc ++ ids) with ⟨x, err, l⟩
        have h2 := ih (acc ++ ids)
        rw [hl] at h2
        simp [commentLoop, ha, hex, hl, List.count_cons, h2, h]
      | error e => simp [commentLoop, ha, hex, List.count_cons, h]

/-- The user loop logs extractor events only. -/
theorem userLoop_count (env : Env) (urls : List String) (ev : Event)
    (h : ev ≠ Event.extract) :
    ∀ acc, ((userLoop env urls acc).2.2).count ev = 0 := by
  induction urls with
  | nil => intro acc; simp [userLoop]
  | cons a t ih =>
    intro acc
    by_cases ha : pystrip a = ""
    · simpa [userLoop, ha] using ih acc
    · cases hex : env.linksUser (pystrip a) with
      | ok ids =>
        rcases hl : userLoop env t (acc ++ ids) with ⟨x, err, l⟩
        have h2 := ih (acc ++ ids)
        rw [hl] at h2
        simp [userLoop, ha, hex, hl, List.count_cons, h2, h]
      | error e => simp [userLoop, ha, hex, List.count_cons, h]

/-- The collects loop logs extractor events only. -/
theorem collectsLoop_count (env : Env) (urls : List String) (ev : Event)
    (h : ev ≠ Event.extract) :
    ∀ acc, ((collectsLoop env urls acc).2.2).count ev = 0 := by
  induction urls with
  | nil => intro acc; simp [collectsLoop]
  | cons a t ih =>
    intro acc
    by_cases ha : pystrip a = ""
    · simpa [collectsLoop, ha] using ih acc
    · cases hex : env.linksCollects (pystrip a) with
      | ok ids =>
        rcases hl : collectsLoop env t (acc ++ ids) with ⟨x, err, l⟩
        have h2 := ih (acc ++ ids)
        rw [hl] at h2
        simp [collectsLoop, ha, hex, hl, List.count_cons, h2, h]
      | error e => simp [collectsLoop, ha, hex, List.count_cons, h]

/-- The per-id live fetch logs fetch events only. -/
theorem liveFetch_count (g : String → Except String Unit) (ids : List String)
    (ev : Event) (h : ev ≠ Event.fetch) :
    ((liveFetch g ids).2).count ev = 0 := by
  induction ids with
  | nil => simp [liveFetch]
  | cons i t ih =>
    cases hg : g i with
    | ok v =>
      rcases hl : liveFetch g t with ⟨r, l⟩
      have h2 := ih
      rw [hl] at h2
      simp [liveFetch, hg, hl, List.count_cons, h2, h]
    | error e => simp [liveFetch, hg, List.count_cons, h]

/-- The live loop logs extractor and fetch events only. -/
theorem liveLoop_count (env : Env) (tk : Bool) (urls : List String)
    (ev : Event) (h1 : ev ≠ Event.extract) (h2 : ev ≠ Event.fetch) :
    ∀ res n, ((liveLoop env tk urls res n).2.2.2).count ev = 0 := by
  induction urls with
  | nil => intro res n; simp [liveLoop]
  | cons a t ih =>
    intro res n
    by_cases ha : pystrip a = ""
    · simpa [liveLoop, ha] using ih res n
    · cases hex : (if tk then env.linksRunLiveTiktok (pystrip a)
          else env.linksRunLive (pystrip a)) with
      | error e => simp [liveLoop, ha, hex, List.count_cons, h1]
      | ok ids =>
        by_cases hie : ids.isEmpty
        · simp [liveLoop, ha, hex, hie, List.count_cons, h1, ih]
        · rcases hlf : liveFetch
            (if tk then env.getLiveDataTiktok else env.getLiveData) ids with ⟨fr, lf⟩
          have hlfc : lf.count ev = 0 := by
            have := liveFetch_count
              (if tk then env.getLiveDataTiktok else env.getLiveData) ids ev h2
            rw [hlf] at this
            exact this
          cases fr with
          | error e =>
            simp [liveLoop, ha, hex, hie, hlf, List.count_cons, h1, hlfc]
          | ok v =>
            cases hxl : env.extractorLive ids with
            | error e =>
              simp [liveLoop, ha, hex, hie, hlf, hxl, List.count_cons,
                List.count_append, h1, h2, hlfc]
            | ok bl =>
              by_cases hbl : !bl.isEmpty && bl.any (fun b => b)
              · simp [liveLoop, ha, hex, hie, hlf, hxl, hbl, List.count_cons,
                  List.count_append, h1, h2, hlfc, ih]
              · simp [liveLoop, ha, hex, hie, hlf, hxl, hbl, List.count_cons,
                  List.count_append, h1, h2, hlfc, ih]

/-- The account loop balances recorder acquisitions and releases. -/
theorem accountLoop_bal (env : Env) (tk : Bool) (tab : String)
    (urls : List String) :
    ∀ res, ((accountLoop env tk tab urls res).2.2).count Event.acquire =
      ((accountLoop env tk tab urls res).2.2).count Event.release := by
  induction urls with
  | nil => intro res; simp [accountLoop]
  | cons a t ih =>
    intro res
    by_cases ha : pystrip a = ""
    · simpa [accountLoop, ha] using ih res
    · cases hex : (if tk then env.linksUserTiktok (pystrip a)
          else env.linksUser (pystrip a)) with
      | error e => simp [accountLoop, ha, hex, List.count_cons]
      | ok userIds =>
        cases userIds with
        | nil => simp [accountLoop, ha, hex, List.count_cons, ih]
        | cons u0 urest =>
          cases hacq : env.acquireRecord with
          | error e =>
            simp [accountLoop, ha, hex, withRecord, hacq, List.count_cons]
          | ok v =>
            cases hdeal : (if tk then env.dealAccountWorksTiktok u0 tab
                else env.dealAccountWorks u0 tab) with
            | error e =>
              simp [accountLoop, ha, hex, withRecord, hacq, hdeal,
                List.count_cons, List.count_append]
            | ok data =>
              by_cases hdt : data.truthy <;>
                simp [accountLoop, ha, hex, withRecord, hacq, hdeal, hdt,
                  List.count_cons, List.count_append, ih]

/-- The mix loop balances recorder acquisitions and releases. -/
theorem mixLoop_bal (env : Env) (tk : Bool) (urls : List String) :
    ∀ res, ((mixLoop env tk urls res).2.2).count Event.acquire =
      ((mixLoop env tk urls res).2.2).count Event.release := by
  induction urls with
  | nil => intro res; simp [mixLoop]
  | cons a t ih =>
    intro res
    by_cases ha : pystrip a = ""
    · simpa [mixLoop, ha] using ih res
    · cases hex : (if tk then env.linksMixTiktok (pystrip a)
          else env.linksMix (pystrip a)) with
      | error e => simp [mixLoop, ha, hex, List.count_cons]
      | ok pr =>
        rcases pr with ⟨tf, mixIds⟩
        cases mixIds with
        | nil => simp [mixLoop, ha, hex, List.count_cons, ih]
        | cons m0 mrest =>
          cases hacq : env.acquireRecord with
          | error e =>
            simp [mixLoop, ha, hex, withRecord, hacq, List.count_cons]
          | ok v =>
            cases hdeal : (if tk then env.mixBatchTiktok (m0 :: mrest)
                else env.mixBatch (m0 :: mrest)) with
            | error e =>
              simp [mixLoop, ha, hex, withRecord, hacq, hdeal,
                List.count_cons, List.count_append]
            | ok data =>
              by_cases hdt : data.truthy <;>
                simp [mixLoop, ha, hex, withRecord, hacq, hdeal, hdt,
                  List.count_cons, List.count_append, ih]

/-- The detail handler balances recorder acquisitions and releases. -/
theorem handleDetailAction_bal (env : Env) (a : String) (urls : List String)
    (tk : Bool) (res : DLResult) :
    ((handleDetailAction env a urls tk res).2.2).count Event.acquire =
      ((handleDetailAction env a urls tk res).2.2).count Event.release := by
  have hd1 := detailLog_count urls Event.acquire (by simp)
  have hd2 := detailLog_count urls Event.release (by simp)
  simp only [handleDetailAction, detailLoop_eq]
  cases hacq : env.acquireRecord with
  | error e =>
    simp only [withRecord, hacq]
    repeat' split
    all_goals simp [List.count_append, List.count_cons, hd1, hd2]
  | ok v =>
    simp only [withRecord, hacq]
    repeat' split
    all_goals simp [List.count_append, List.count_cons, hd1, hd2]

/-- The search handler balances recorder acquisitions and releases. -/
theorem handleSearchAction_bal (env : Env) (k st : String) (res : DLResult) :
    ((handleSearchAction env k st res).2.2).count Event.acquire =
      ((handleSearchAction env k st res).2.2).count Event.release := by
  simp only [handleSearchAction]
  cases hacq : env.acquireRecord with
  | error e =>
    simp only [withRecord, hacq]
    repeat' split
    all_goals simp [List.count_append, List.count_cons]
  | ok v =>
    simp only [withRecord, hacq]
    repeat' split
    all_goals simp [List.count_append, List.count_cons]

/-- The hot handler balances recorder acquisitions and releases. -/
theorem handleHotAction_bal (env : Env) (res : DLResult) :
    ((handleHotAction env res).2.2).count Event.acquire =
      ((handleHotAction env res).2.2).count Event.release := by
  simp only [handleHotAction]
  cases hacq : env.acquireRecord with
  | error e =>
    simp only [withRecord, hacq]
    repeat' split
    all_goals simp [List.count_append, List.count_cons]
  | ok v =>
    simp only [withRecord, hacq]
    repeat' split
    all_goals simp [List.count_append, List.count_cons]

/-- The comment handler opens no recorder session and balances trivially. -/
theorem handleCommentAction_bal (env : Env) (urls : List String) (mp : Nat)
    (res : DLResult) :
    ((handleCommentAction env urls mp res).2.2).count Event.acquire =
      ((handleCommentAction env urls mp res).2.2).count Event.release := by
  have hc1 := commentLoop_count env urls Event.acquire (by simp) []
  have hc2 := commentLoop_count env urls Event.release (by simp) []
  rcases hcl : commentLoop env urls [] with ⟨allIds, err, l⟩
  rw [hcl] at hc1 hc2
  simp only [handleCommentAction, hcl]
  repeat' split
  all_goals simp [List.count_append, List.count_cons, hc1, hc2]

/-- The user handler balances recorder acquisitions and releases. -/
theorem handleUserAction_bal (env : Env) (urls : List String)
    (res : DLResult) :
    ((handleUserAction env urls res).2.2).count Event.acquire =
      ((handleUserAction env urls res).2.2).count Event.release := by
  have hu1 := userLoop_count env urls Event.acquire (by simp) []
  have hu2 := userLoop_count env urls Event.release (by simp) []
  rcases hul : userLoop env urls [] with ⟨allIds, uerr, l⟩
  rw [hul] at hu1 hu2
  cases hacq : env.acquireRecord with
  | error e =>
    simp only [handleUserAction, hul, withRecord, hacq]
    repeat' split
    all_goals simp [List.count_append, List.count_cons, hu1, hu2]
  | ok v =>
    simp only [handleUserAction, hul, withRecord, hacq]
    repeat' split
    all_goals simp [List.count_append, List.count_cons, hu1, hu2]

/-- The live handler opens no recorder session and balances trivially. -/
theorem handleLiveAction_bal (env : Env) (urls : List String) (tk : Bool)
    (res : DLResult) :
    ((handleLiveAction env urls tk res).2.2).count Event.acquire =
      ((handleLiveAction env urls tk res).2.2).count Event.release := by
  have hl1 := liveLoop_count env tk urls Event.acquire (by simp) (by simp) res 0
  have hl2 := liveLoop_count env tk urls Event.release (by simp) (by simp) res 0
  rcases hll : liveLoop env tk urls res 0 with ⟨r, n, err, l⟩
  rw [hll] at hl1 hl2
  simp only [handleLiveAction, hll]
  repeat' split
  all_goals simp [List.count_append, List.count_cons, hl1, hl2]

/-- The account handler balances recorder acquisitions and releases. -/
theorem handleAccountAction_bal (env : Env) (urls : List String) (tk : Bool)
    (tab : String) (res : DLResult) :
    ((handleAccountAction env urls tk tab res).2.2).count Event.acquire =
      ((handleAccountAction env urls tk tab res).2.2).count Event.release := by
  have hb := accountLoop_bal env tk tab urls res
  rcases hal : accountLoop env tk tab urls res with ⟨r, err, l⟩
  rw [hal] at hb
  simp only [handleAccountAction, hal]
  repeat' split
  all_goals simpa using hb

/-- The mix handler balances recorder acquisitions and releases. -/
theorem handleMixAction_bal (env : Env) (urls : List String) (tk : Bool)
    (res : DLResult) :
    ((handleMixAction env urls tk res).2.2).count Event.acquire =
      ((handleMixAction env urls tk res).2.2).count Event.release := by
  have hb := mixLoop_bal env tk urls res
  rcases hml : mixLoop env tk urls res with ⟨r, err, l⟩
  rw [hml] at hb
  simp only [handleMixAction, hml]
  repeat' split
  all_goals simpa using hb

/-- The collection handler balances recorder acquisitions and releases. -/
theorem handleCollectionAction_bal (env : Env) (a : String)
    (urls : List String) (res : DLResult) :
    ((handleCollectionAction env a urls res).2.2).count Event.acquire =
      ((handleCollectionAction env a urls res).2.2).count Event.release := by
  have hc1 := collectsLoop_count env urls Event.acquire (by simp) []
  have hc2 := collectsLoop_count env urls Event.release (by simp) []
  rcases hcl : collectsLoop env urls [] with ⟨ids, cerr, lc⟩
  rw [hcl] at hc1 hc2
  cases hacq : env.acquireRecord with
  | error e =>
    simp only [handleCollectionAction, hcl, withRecord, hacq]
    repeat' split
    all_goals simp [List.count_append, List.count_cons, hc1, hc2]
  | ok v =>
    simp only [handleCollectionAction, hcl, withRecord, hacq]
    repeat' split
    all_goals simp [List.count_append, List.count_cons, hc1, hc2]

/-- Applying `apiFinish` keeps the success flag of the handler result (also on the
exception path, where only the message is overwritten). -/
theorem apiFinish_success_any (env : Env) (r : DLResult) (err : Option String)
    (l : List Event) (early : Bool) :
    (apiFinish env (r, err, l, early)).1.success = r.success := by
  cases err <;> cases early <;> cases hc : env.closeClient <;>
    simp [apiFinish, hc]

/-- Applying `apiFinish` keeps the event log, for any packed handler outcome. -/
theorem apiFinish_log2 (env : Env)
    (x : DLResult × Option String × List Event × Bool) :
    (apiFinish env x).2 = x.2.2.1 := by
  rcases x with ⟨r, err, l, early⟩
  exact apiFinish_log env r err l early

/-- The dispatch chain balances recorder acquisitions and releases for
every action. -/
theorem dispatchAction_bal (env : Env) (action : String) (urls : List String)
    (kw : Kwargs) (res : DLResult) :
    ((dispatchAction env action urls kw res).2.2.1).count Event.acquire =
      ((dispatchAction env action urls kw res).2.2.1).count Event.release := by
  by_cases h1 : action = "detail" ∨ action = "detail_unofficial"
  · rcases hd : handleDetailAction env action urls kw.tiktok res with ⟨r, e2, l⟩
    have hb := handleDetailAction_bal env action urls kw.tiktok res
    rw [hd] at hb
    have hlog : (dispatchAction env action urls kw res).2.2.1 = l := by
      simp [dispatchAction, h1, hd]
    rw [hlog]
    exact hb
  · rw [not_or] at h1
    by_cases h2 : action = "account"
    · rcases hd : handleAccountAction env urls kw.tiktok kw.account_tab res
        with ⟨r, e2, l⟩
      have hb := handleAccountAction_bal env urls kw.tiktok kw.account_tab res
      rw [hd] at hb
      have hlog : (dispatchAction env action urls kw res).2.2.1 = l := by
        simp [dispatchAction, h1.1, h1.2, h2, hd]
      rw [hlog]
      exact hb
    · by_cases h3 : action = "live"
      · rcases hd : handleLiveAction env urls kw.tiktok res with ⟨r, e2, l⟩
        have hb := handleLiveAction_bal env urls kw.tiktok res
        rw [hd] at hb
        have hlog : (dispatchAction env action urls kw res).2.2.1 = l := by
          simp [dispatchAction, h1.1, h1.2, h2, h3, hd]
        rw [hlog]
        exact hb
      · by_cases h4 : action = "comment"
        · cases htk : kw.tiktok with
          | true =>
            have hlog : (dispatchAction env action urls kw res).2.2.1 = [] := by
              simp [dispatchAction, h1.1, h1.2, h2, h3, h4, htk]
            simp [hlog]
          | false =>
            rcases hd : handleCommentAction env urls (getMaxPages kw) res
              with ⟨r, e2, l⟩
            have hb := handleCommentAction_bal env urls (getMaxPages kw) res
            rw [hd] at hb
            have hlog : (dispatchAction env action urls kw res).2.2.1 = l := by
              simp [dispatchAction, h1.1, h1.2, h2, h3, h4, htk, hd]
            rw [hlog]
            exact hb
        · by_cases h5 : action = "mix"
          · rcases hd : handleMixAction env urls kw.tiktok res with ⟨r, e2, l⟩
            have hb := handleMixAction_bal env urls kw.tiktok res
            rw [hd] at hb
            have hlog : (dispatchAction env action urls kw res).2.2.1 = l := by
              simp [dispatchAction, h1.1, h1.2, h2, h3, h4, h5, hd]
            rw [hlog]
            exact hb
          · by_cases h6 : action = "user"
            · cases htk : kw.tiktok with
              | true =>
                have hlog : (dispatchAction env action urls kw res).2.2.1 = [] := by
                  simp [dispatchAction, h1.1, h1.2, h2, h3, h4, h5, h6, htk]
                simp [hlog]
              | false =>
                rcases hd : handleUserAction env urls res with ⟨r, e2, l⟩
                have hb := handleUserAction_bal env urls res
                rw [hd] at hb
                have hlog : (dispatchAction env action urls kw res).2.2.1 = l := by
                  simp [dispatchAction, h1.1, h1.2, h2, h3, h4, h5, h6, htk, hd]
                rw [hlog]
                exact hb
            · by_cases h7 : action = "search"
              · cases htk : kw.tiktok with
                | true =>
                  have hlog : (dispatchAction env action urls kw res).2.2.1 = [] := by
                    simp [dispatchAction, h1.1, h1.2, h2, h3, h4, h5, h6, h7, htk]
                  simp [hlog]
                | false =>
                  rcases hd : handleSearchAction env kw.search_keyword
                      kw.search_type res with ⟨r, e2, l⟩
                  have hb := handleSearchAction_bal env kw.search_keyword
                    kw.search_type res
                  rw [hd] at hb
                  have hlog : (dispatchAction env action urls kw res).2.2.1 = l := by
                    simp [dispatchAction, h1.1, h1.2, h2, h3, h4, h5, h6, h7,
                      htk, hd]
                  rw [hlog]
                  exact hb
              · by_cases h8 : action = "hot"
                · cases htk : kw.tiktok with
                  | true =>
                    have hlog : (dispatchAction env action urls kw res).2.2.1 = [] := by
                      simp [dispatchAction, h1.1, h1.2, h2, h3, h4, h5, h6, h7,
                        h8, htk]
                    simp [hlog]
                  | false =>
                    rcases hd : handleHotAction env res with ⟨r, e2, l⟩
                    have hb := handleHotAction_bal env res
                    rw [hd] at hb
                    have hlog : (dispatchAction env action urls kw res).2.2.1 = l := by
                      simp [dispatchAction, h1.1, h1.2, h2, h3, h4, h5, h6, h7,
                        h8, htk, hd]
                    rw [hlog]
                    exact hb
                · cases htk : kw.tiktok with
                  | true =>
                    have hlog : (dispatchAction env action urls kw res).2.2.1 = [] := by
                      simp [dispatchAction, h1.1, h1.2, h2, h3, h4, h5, h6, h7,
                        h8, htk]
                    simp [hlog]
                  | false =>
                    rcases hd : handleCollectionAction env action urls res
                      with ⟨r, e2, l⟩
                    have hb := handleCollectionAction_bal env action urls res
                    rw [hd] at hb
                    have hlog : (dispatchAction env action urls kw res).2.2.1 = l := by
                      simp [dispatchAction, h1.1, h1.2, h2, h3, h4, h5, h6, h7,
                        h8, htk, hd]
                    rw [hlog]
                    exact hb

/-- Every `API_download` run balances recorder acquisitions and
releases. -/
theorem API_download_bal (env : Env) (cookie action : String) (kw : Kwargs) :
    (API_download env cookie action kw).2.count Event.acquire =
      (API_download env cookie action kw).2.count Event.release := by
  by_cases hv : validActions.contains action = true
  · simp only [API_download, hv, Bool.not_true, Bool.false_eq_true, if_false]
    repeat' split
    all_goals simp [apiFinish_log2, dispatchAction_bal]
  · have hm : action ∉ validActions := by simpa using hv
    simp [API_download, hm]

/-- If the recorder acquisition fails, the detail handler leaves the
success flag unchanged and its log is the loop's extractor log only (the
download body never ran). -/
theorem handleDetailAction_acqfail (env : Env) (a : String)
    (urls : List String) (tk : Bool) (res : DLResult) (e : String)
    (hacq : env.acquireRecord = .error e) :
    (handleDetailAction env a urls tk res).1.success = res.success ∧
    (handleDetailAction env a urls tk res).2.2 = detailLog urls := by
  simp only [handleDetailAction, detailLoop_eq]
  repeat' split
  all_goals simp [withRecord, hacq]

/-- If the recorder acquisition fails, the search handler leaves the
success flag unchanged and makes no call at all. -/
theorem handleSearchAction_acqfail (env : Env) (k st : String)
    (res : DLResult) (e : String) (hacq : env.acquireRecord = .error e) :
    (handleSearchAction env k st res).1.success = res.success ∧
    (handleSearchAction env k st res).2.2 = [] := by
  simp only [handleSearchAction]
  repeat' split
  all_goals simp [withRecord, hacq]

/-- When recorder acquisition fails, a `detail` or `search` call ends as
a batch-level failure: no fetch, no release, `success = false`. -/
theorem API_download_acqfail (env : Env) (cookie action : String)
    (kw : Kwargs) (e : String)
    (ha : action = "detail" ∨ action = "search")
    (hacq : env.acquireRecord = .error e) :
    (API_download env cookie action kw).1.success = false ∧
    (API_download env cookie action kw).2.count Event.fetch = 0 ∧
    (API_download env cookie action kw).2.count Event.release = 0 := by
  rcases ha with rfl | rfl
  · simp only [API_download]
    by_cases hu : urlsTruthy kw.urls = true
    · simp only [hu]
      cases hn : normalizeUrls (kw.urls.getD (PyUrls.pystr "")) with
      | error m =>
        simp [hn, validActions, inputActions, urlActions, initResult]
      | ok urls =>
        cases hs : env.setup with
        | error e2 =>
          simp [hn, hs, validActions, inputActions, urlActions, initResult]
        | ok v =>
          rcases hd : handleDetailAction env "detail" urls kw.tiktok initResult
            with ⟨r, herr, hl⟩
          have hfd := handleDetailAction_acqfail env "detail" urls kw.tiktok
            initResult e hacq
          rw [hd] at hfd
          have hc1 := detailLog_count urls Event.fetch (by simp)
          have hc2 := detailLog_count urls Event.release (by simp)
          simp only [initResult] at hd hfd
          simp [hn, hs, hd, validActions, inputActions, urlActions,
            dispatchAction, apiFinish_success_any, apiFinish_log2, hfd.1,
            hfd.2, initResult, hc1, hc2]
    · simp [hu, validActions, inputActions, urlActions, initResult]
  · simp only [API_download]
    by_cases hk : pystrip kw.search_keyword = ""
    · simp [hk, validActions, inputActions, urlActions, initResult]
    · cases hs : env.setup with
      | error e2 =>
        simp [hk, hs, validActions, inputActions, urlActions, initResult]
      | ok v =>
        cases htk : kw.tiktok with
        | true =>
          simp [hk, hs, htk, validActions, inputActions, urlActions,
            dispatchAction, apiFinish, initResult]
        | false =>
          rcases hd : handleSearchAction env kw.search_keyword kw.search_type
            initResult with ⟨r, herr, hl⟩
          have hfd := handleSearchAction_acqfail env kw.search_keyword
            kw.search_type initResult e hacq
          rw [hd] at hfd
          simp only [initResult] at hd hfd
          simp [hk, hs, htk, hd, validActions, inputActions, urlActions,
            dispatchAction, apiFinish_success_any, apiFinish_log2, hfd.1,
            hfd.2, initResult]

/-- Claim C8: every recording session a handler acquires is released
exactly once on every exit path (in every run the counts of acquire and
release events coincide), and when acquisition itself fails for the
recorder-using `detail`/`search` handlers the body is never invoked (no
fetch event, no release event) and the call ends as a batch-level failure
with `success = false`. -/
theorem recorder_sessions_scoped (env : Env) (cookie action : String)
    (kw : Kwargs) (e : String) :
    ((API_download env cookie action kw).2.count Event.acquire =
      (API_download env cookie action kw).2.count Event.release) ∧
    ((action = "detail" ∨ action = "search") →
      env.acquireRecord = Except.error e →
      (API_download env cookie action kw).1.success = false ∧
      (API_download env cookie action kw).2.count Event.fetch = 0 ∧
      (API_download env cookie action kw).2.count Event.release = 0) :=
  ⟨API_download_bal env cookie action kw,
   fun ha hacq => API_download_acqfail env cookie action kw e ha hacq⟩

/-- Environment whose recorder acquisition fails. -/
def envAcqFail : Env :=
  { envIdle with acquireRecord := .error "no session" }

/-- Witness for C8 at a concrete acquisition failure on a detail call. -/
theorem recorder_sessions_scoped_witness :
    ((API_download envAcqFail "c" "detail"
        { urls := Option.some (.pystr "u") }).2.count Event.acquire =
      (API_download envAcqFail "c" "detail"
        { urls := Option.some (.pystr "u") }).2.count Event.release) ∧
    ((API_download envAcqFail "c" "detail"
        { urls := Option.some (.pystr "u") }).1.success = false ∧
     (API_download envAcqFail "c" "detail"
        { urls := Option.some (.pystr "u") }).2.count Event.fetch = 0 ∧
     (API_download envAcqFail "c" "detail"
        { urls := Option.some (.pystr "u") }).2.count Event.release = 0) :=
  ⟨(recorder_sessions_scoped envAcqFail "c" "detail"
      { urls := Option.some (.pystr "u") } "no session").1,
   (recorder_sessions_scoped envAcqFail "c" "detail"
      { urls := Option.some (.pystr "u") } "no session").2 (Or.inl rfl) rfl⟩

end TTD
